import Mathlib

/-!
Verification of the MPEG-2 transport-stream decoder in `TSParser.py`.

The Python source is shallowly embedded: the byte source (`filehandle`) is a
`List Nat` of byte values, reads are modelled positionally, Python integers
are `Nat` (or `Int` where the source arithmetic can go negative), and Python
exceptions are modelled with `Except PyErr`.  The embedding follows the
source line by line; places where the Python 3 semantics of the source
diverge from its apparent (Python 2 era) intent are modelled exactly as
Python 3 executes them and flagged in comments.
-/

namespace TSParser

/-- Python exceptions that the source can raise while reading fields:
`ioError` models `IOError` (the exception `readFile` *intends* to raise at
EOF), `structError` models `struct.error` (raised by `struct.unpack` on a
short buffer), `typeError` models the `TypeError` Python would raise if a
caller did arithmetic on the `None` that `readFile` returns for an
unsupported width. -/
inductive PyErr
  | ioError
  | structError
  | typeError
deriving DecidableEq, Repr

/-- Python 3 semantics of the source's `string == ''` test in `readFile`:
`filehandle.read` on a file opened in binary mode returns `bytes`, and in
Python 3 a `bytes` value compares unequal to every `str`, so this test is
always `False` (a Python 2 leftover).  The bytes read are the first
argument, the `str` literal the second. -/
def bytesEqStr (_bytes : List Nat) (_s : String) : Bool := false

/-- `filehandle.seek(startPos); filehandle.read(width)`: the bytes of the
source from position `startPos`, at most `width` of them (fewer near EOF,
none past EOF). -/
def readBytes (data : List Nat) (startPos width : Nat) : List Nat :=
  (data.drop startPos).take width

/-- Big-endian integer value of a byte string, as `struct.unpack` computes
it for the formats `>L`, `>H`, `>B`. -/
def beVal (bs : List Nat) : Nat :=
  bs.foldl (fun acc b => acc * 256 + b) 0

/-- `readFile(filehandle, startPos, width)` from `TSParser.py`.  For widths
4, 2, 1 it seeks to `startPos`, reads `width` bytes and unpacks them
big-endian.  The source's EOF test `if string == '': raise IOError` is kept
(via `bytesEqStr`) but, as in Python 3, it never fires; `struct.unpack`
then raises `struct.error` whenever fewer than `width` bytes were read.
For any other width the `if/elif` chain falls through and the function
returns Python's implicit `None`, modelled as `.ok none`. -/
def readFile (data : List Nat) (startPos width : Nat) : Except PyErr (Option Nat) :=
  if width = 4 then
    let s := readBytes data startPos 4
    if bytesEqStr s "" then .error .ioError
    else if (s.take 4).length = 4 then .ok (some (beVal (s.take 4)))
    else .error .structError
  else if width = 2 then
    let s := readBytes data startPos 2
    if bytesEqStr s "" then .error .ioError
    else if (s.take 2).length = 2 then .ok (some (beVal (s.take 2)))
    else .error .structError
  else if width = 1 then
    let s := readBytes data startPos 1
    if bytesEqStr s "" then .error .ioError
    else if (s.take 1).length = 1 then .ok (some (beVal (s.take 1)))
    else .error .structError
  else .ok none

/-- A call of `readFile` whose result is immediately used as an integer, as
every call site in the source does.  If `readFile` returned `None`
(unsupported width) the caller's arithmetic would raise `TypeError`; all
call sites pass widths in {1, 2, 4}, so that branch is unreachable there. -/
def readFileN (data : List Nat) (startPos width : Nat) : Except PyErr Nat :=
  match readFile data startPos width with
  | .error e => .error e
  | .ok none => .error .typeError
  | .ok (some v) => .ok v

/-- The `SystemClock` object: mutable PCR sample, updated in place by
`parseAdaptation_Field` via `setPCR`. -/
structure SystemClock where
  PCR_base_hi : Nat
  PCR_base_lo : Nat
  PCR_extension : Nat
deriving DecidableEq, Repr

/-- Initial `SystemClock()` state. -/
def SystemClock.init : SystemClock := ⟨0, 0, 0⟩

/-- The `PESPacketInfo` object: mutable record reused across the whole
scan.  `AUType` starts as the Python string `""` and `setAUType` can later
store the `None` that `parseIndividualPESPayload` returns when it falls off
its end, hence `Option String`. -/
structure PESPacketInfo where
  PTS_hi : Nat
  PTS_lo : Nat
  streamID : Nat
  AUType : Option String
deriving DecidableEq, Repr

/-- Initial `PESPacketInfo()` state. -/
def PESPacketInfo.init : PESPacketInfo := ⟨0, 0, 0, some ""⟩

/-- `parseAdaptation_Field(filehandle, startPos, PCR)`.  Returns the
source's `[adaptation_field_length + 1, flags]` pair together with the
(possibly updated) `SystemClock`, which the source mutates in place. -/
def parseAdaptation_Field (data : List Nat) (startPos : Nat) (PCR : SystemClock) :
    Except PyErr (Nat × Nat × SystemClock) :=
  match readFileN data startPos 1 with
  | .error e => .error e
  | .ok adaptation_field_length =>
    if adaptation_field_length > 0 then
      match readFileN data (startPos + 1) 1 with
      | .error e => .error e
      | .ok flags =>
        if (flags >>> 4) &&& 0x1 = 1 then
          match readFileN data (startPos + 2) 4 with
          | .error e => .error e
          | .ok PCR1 =>
            match readFileN data (startPos + 6) 2 with
            | .error e => .error e
            | .ok PCR2 =>
              .ok (adaptation_field_length + 1, flags,
                { PCR_base_hi := (PCR1 >>> 31) &&& 0x1,
                  PCR_base_lo := (PCR1 <<< 1) + ((PCR2 >>> 15) &&& 0x1),
                  PCR_extension := PCR2 &&& 0x1FF })
        else .ok (adaptation_field_length + 1, flags, PCR)
    else .ok (adaptation_field_length + 1, 0, PCR)

/-- `getPTS(filehandle, startPos)`: the 5-byte timestamp decode, returning
`(PTS_hi, PTS_low)` exactly as the source computes them (which, as the spec
notes, does not mask the ISO 13818-1 marker bits out). -/
def getPTS (data : List Nat) (startPos : Nat) : Except PyErr (Nat × Nat) :=
  match readFileN data startPos 1 with
  | .error e => .error e
  | .ok time1 =>
    match readFileN data (startPos + 1) 2 with
    | .error e => .error e
    | .ok time2 =>
      match readFileN data (startPos + 3) 2 with
      | .error e => .error e
      | .ok time3 =>
        .ok ((time1 >>> 3) &&& 0x1,
          (((time1 >>> 1) &&& 0x3) <<< 30) + (((time2 >>> 1) &&& 0x7FFF) <<< 15)
            + ((time3 >>> 1) &&& 0x7FFF))

/-- The `while` loop of `parseIndividualPESPayload`, entered with window
counter `k` and the 4-byte window `local0` just read at `n + k`.  On a
window that is not a start code the source increments `k`, gives up with
the string `"Unknown AU type"` once `k > 100`, and otherwise reads the next
window.  After the loop the source re-tests the start-code mask together
with the NAL-type test `(local&0x1F) == 0x9` (bitwise `&` binds tighter
than `==` in Python); when the NAL type is not 9 the function falls off its
end, returning Python's `None`. -/
def pesLoop (data : List Nat) (n k local0 : Nat) : Except PyErr (Option String) :=
  if (local0 &&& 0xFFFFFF00) ≠ 0x00000100 then
    if k + 1 > 100 then .ok (some "Unknown AU type")
    else
      match readFileN data (n + (k + 1)) 4 with
      | .error e => .error e
      | .ok local1 => pesLoop data n (k + 1) local1
  else
    if (local0 &&& 0xFFFFFF00) = 0x00000100 ∧ (local0 &&& 0x1F) = 0x9 then
      match readFileN data (n + k + 4) 1 with
      | .error e => .error e
      | .ok b =>
        if (b &&& 0xE0) >>> 5 = 0x0 then .ok (some "IDR_picture")
        else .ok (some "non_IDR_picture")
    else .ok none
termination_by 101 - k
decreasing_by omega

/-- `parseIndividualPESPayload(filehandle, startPos)`: classify the access
unit beginning at `startPos`. -/
def parseIndividualPESPayload (data : List Nat) (startPos : Nat) :
    Except PyErr (Option String) :=
  match readFileN data startPos 4 with
  | .error e => .error e
  | .ok local0 => pesLoop data startPos 0 local0

/-- The condition of the source's big stream-ID test in `parsePESHeader`:
true when `stream_ID` is not one of the seven "system" ids, i.e. when the
header carries the optional-field region. -/
def notSystemStreamID (stream_ID : Nat) : Bool :=
  stream_ID ≠ 0xBC && stream_ID ≠ 0xBE && stream_ID ≠ 0xF0 && stream_ID ≠ 0xF1 &&
  stream_ID ≠ 0xFF && stream_ID ≠ 0xF9 && stream_ID ≠ 0xF8

/-- Result of `parsePESHeader`: the updated `PESPacketInfo` plus a record of
the local timestamp bindings the source makes: `ptsDecoded` is the
`(PTS_hi, PTS_low)` pair bound (and stored via `setPTS`), `dtsDecoded` the
`(DTS_hi, DTS_low)` pair bound at the `PTS_DTS_flag == 0x3` branch — which
the source then discards without storing (there is no `setDTS`). -/
structure PESParseResult where
  info : PESPacketInfo
  ptsDecoded : Option (Nat × Nat)
  dtsDecoded : Option (Nat × Nat)
deriving DecidableEq, Repr

/-- `parsePESHeader(filehandle, startPos, PESPktInfo)`.  Reads the stream id
and packet length, and for non-system stream ids the 4-byte flags field;
`PTS_DTS_flag = 2` decodes one PTS, `PTS_DTS_flag = 3` decodes a PTS and a
DTS (the DTS being discarded), any other flag returns early without
touching the timestamp fields.  The access-unit classifier runs at
`startPos + 6 + PES_header_data_length + 3` in the two timestamp cases. -/
def parsePESHeader (data : List Nat) (startPos : Nat) (info : PESPacketInfo) :
    Except PyErr PESParseResult :=
  match readFileN data (startPos + 3) 1 with
  | .error e => .error e
  | .ok stream_ID =>
    match readFileN data (startPos + 4) 2 with
    | .error e => .error e
    | .ok _PES_packetLength =>
      let info := { info with streamID := stream_ID }
      if notSystemStreamID stream_ID then
        match readFileN data (startPos + 5) 4 with
        | .error e => .error e
        | .ok PES_packet_flags =>
          let PTS_DTS_flag := (PES_packet_flags >>> 14) &&& 0x3
          let PES_header_data_length := PES_packet_flags &&& 0xFF
          let k := 6 + PES_header_data_length + 3
          if PTS_DTS_flag = 0x2 then
            match getPTS data (startPos + 9) with
            | .error e => .error e
            | .ok pts =>
              let info := { info with PTS_hi := pts.1, PTS_lo := pts.2 }
              match parseIndividualPESPayload data (startPos + k) with
              | .error e => .error e
              | .ok auType => .ok ⟨{ info with AUType := auType }, some pts, none⟩
          else if PTS_DTS_flag = 0x3 then
            match getPTS data (startPos + 9) with
            | .error e => .error e
            | .ok pts =>
              let info := { info with PTS_hi := pts.1, PTS_lo := pts.2 }
              match getPTS data (startPos + 14) with
              | .error e => .error e
              | .ok dts =>
                match parseIndividualPESPayload data (startPos + k) with
                | .error e => .error e
                | .ok auType => .ok ⟨{ info with AUType := auType }, some pts, some dts⟩
          else .ok ⟨info, none, none⟩
      else .ok ⟨info, none, none⟩

/-- The descriptor-skipping `while (n>0)` loop that appears verbatim four
times in the section decoders (`parsePMTSection` twice, `parseSITSection`
twice): starting with `n` announced bytes and cursor `m`, each iteration
reads a `(descriptor_tag, descriptor_length)` pair and advances both by
`descriptor_length + 2`.  `n` is a Python int and can go negative when the
pairs overshoot the announced length; the final cursor `m` is returned. -/
def descriptorLoop (data : List Nat) (n : Int) (m : Nat) : Except PyErr Nat :=
  if _h : n > 0 then
    match readFileN data m 1 with
    | .error e => .error e
    | .ok _descriptor_tag =>
      match readFileN data (m + 1) 1 with
      | .error e => .error e
      | .ok descriptor_length =>
        descriptorLoop data (n - ((descriptor_length : Int) + 2)) (m + descriptor_length + 2)
  else .ok m
termination_by n.toNat
decreasing_by omega

/-- The `while (length > 0)` program-loop of `parsePATSection`: 4-byte
`(program_number, program_map_PID)` entries, `length` decreasing by 4. -/
def patLoop (data : List Nat) (length : Int) (j : Nat) : Except PyErr Unit :=
  if _h : length > 0 then
    match readFileN data j 4 with
    | .error e => .error e
    | .ok _local => patLoop data (length - 4) (j + 4)
  else .ok ()
termination_by length.toNat
decreasing_by omega

/-- `parsePATSection(filehandle, k)`.  The logged fields are pure functions
of the reads; only the reads (which can raise) are modelled. -/
def parsePATSection (data : List Nat) (k : Nat) : Except PyErr Unit :=
  match readFileN data k 4 with
  | .error e => .error e
  | .ok local0 =>
    if local0 >>> 24 ≠ 0x0 then .ok ()
    else
      let section_length := (local0 >>> 8) &&& 0xFFF
      match readFileN data (k + 4) 4 with
      | .error e => .error e
      | .ok _local1 => patLoop data ((section_length : Int) - 4 - 5) (k + 8)

/-- The `while (length > 0)` elementary-stream loop of `parsePMTSection`:
per stream, a 1-byte `stream_type`, a 4-byte word holding `elementary_PID`
and `ES_info_length`, then an ES descriptor loop; cursor and remaining
length advance by `5 + ES_info_length`. -/
def esLoop (data : List Nat) (length : Int) (j : Nat) : Except PyErr Unit :=
  if _h : length > 0 then
    match readFileN data j 1 with
    | .error e => .error e
    | .ok _local1 =>
      match readFileN data (j + 1) 4 with
      | .error e => .error e
      | .ok local2 =>
        let ES_info_length := local2 &&& 0xFFF
        match descriptorLoop data (ES_info_length : Int) (j + 5) with
        | .error e => .error e
        | .ok _ =>
          esLoop data (length - (5 + (ES_info_length : Int))) (j + 5 + ES_info_length)
  else .ok ()
termination_by length.toNat
decreasing_by omega

/-- `parsePMTSection(filehandle, k)`: fixed header reads, the program-info
descriptor loop at `k + 12`, then the ES loop. -/
def parsePMTSection (data : List Nat) (k : Nat) : Except PyErr Unit :=
  match readFileN data k 4 with
  | .error e => .error e
  | .ok local0 =>
    if local0 >>> 24 ≠ 0x2 then .ok ()
    else
      let section_length := (local0 >>> 8) &&& 0xFFF
      match readFileN data (k + 4) 4 with
      | .error e => .error e
      | .ok _local1 =>
        match readFileN data (k + 8) 4 with
        | .error e => .error e
        | .ok local2 =>
          let program_info_length := local2 &&& 0xFFF
          match descriptorLoop data (program_info_length : Int) (k + 12) with
          | .error e => .error e
          | .ok _ =>
            esLoop data ((section_length : Int) - 4 - 9 - (program_info_length : Int))
              (k + 12 + program_info_length)

/-- The `while (length > 0)` service loop of `parseSITSection`: per
service, a 4-byte word holding `service_id` and `service_loop_length`, then
a descriptor loop; cursor and remaining length advance by
`4 + service_loop_length`. -/
def sitServiceLoop (data : List Nat) (length : Int) (j : Nat) : Except PyErr Unit :=
  if _h : length > 0 then
    match readFileN data j 4 with
    | .error e => .error e
    | .ok local1 =>
      let service_loop_length := local1 &&& 0xFFF
      match descriptorLoop data (service_loop_length : Int) (j + 4) with
      | .error e => .error e
      | .ok _ =>
        sitServiceLoop data (length - (4 + (service_loop_length : Int))) (j + 4 + service_loop_length)
  else .ok ()
termination_by length.toNat
decreasing_by omega

/-- `parseSITSection(filehandle, k)`: fixed header reads, the
transmission-info descriptor loop at `k + 10`, then the service loop. -/
def parseSITSection (data : List Nat) (k : Nat) : Except PyErr Unit :=
  match readFileN data k 4 with
  | .error e => .error e
  | .ok local0 =>
    if local0 >>> 24 ≠ 0x7F then .ok ()
    else
      let section_length := (local0 >>> 8) &&& 0xFFF
      match readFileN data (k + 4) 4 with
      | .error e => .error e
      | .ok _local1 =>
        match readFileN data (k + 8) 2 with
        | .error e => .error e
        | .ok local2 =>
          let transmission_info_loop_length := local2 &&& 0xFFF
          match descriptorLoop data (transmission_info_loop_length : Int) (k + 10) with
          | .error e => .error e
          | .ok _ =>
            sitServiceLoop data
              ((section_length : Int) - 4 - 7 - (transmission_info_loop_length : Int))
              (k + 10 + transmission_info_loop_length)

/-- The configuration `parseTSMain` is called with: the byte source and the
`packet_size`, `mode`, `pid`, `psi_mode`, `searchItem` arguments. -/
structure Ctx where
  data : List Nat
  packet_size : Nat
  mode : String
  pid : Nat
  psi_mode : Nat
  searchItem : String

/-- One log line emitted by `parseTSMain` (via `logging.info`), restricted
to the lines the scan itself produces; the per-field lines printed inside
the section decoders are not modelled (they carry no state).  `patLog`,
`pmtLog`, `sitLog` mark the point where the scan decodes and reports a
PAT/PMT/SIT section; `reportLine` is one line of the final entry-point
report. -/
inductive Ev
  | syncError
  | pcrLog (pkt PID base_hi base_lo ext : Nat) (disc : Bool)
  | pesStart (pkt PID msb24 pts_hi pts_lo : Nat)
  | esLine (pkt PID sid : Nat) (au : Option String)
  | wrongTable (pkt : Nat)
  | patLog (pkt PID : Nat)
  | pmtLog (pkt PID : Nat)
  | sitLog (pkt PID : Nat)
  | ioErrorLog
  | reportLine (tpi pts : Nat) (num : Int)
deriving DecidableEq, Repr

/-- The local variables of `parseTSMain`'s scan loop.  The Python lists are
mutated in place; `EntryPESPacketNumList` holds
`last_SameES_packetNo - last_EntryTPI + 1` values, which are Python ints. -/
structure ScanState where
  n : Nat
  packetCount : Nat
  PCR : SystemClock
  PESPktInfo : PESPacketInfo
  EntryPESPacketNumList : List Int
  TPIList : List Nat
  PTSList : List Nat
  PIDList : List Nat
  idr_flag : Bool
  last_SameES_packetNo : Nat
  last_EntryTPI : Nat
deriving DecidableEq, Repr

/-- How the payload block of one loop iteration exits: fall through to the
packet increment at the bottom of the loop, `continue`, or `return`. -/
inductive PayloadOut
  | fall (s : ScanState)
  | cont (s : ScanState)
  | ret (s : ScanState)
deriving DecidableEq, Repr

/-- How one whole loop iteration exits: proceed to the next iteration,
`break` (sync mismatch or packet-count ceiling), or `return`. -/
inductive StepOut
  | next (s : ScanState)
  | brk (s : ScanState)
  | ret (s : ScanState)
deriving DecidableEq, Repr

/-- The shared tail of the PMT branch: decode the section, log, and return
from the whole scan when `psi_mode == 0`. -/
def pmtEmit (ctx : Ctx) (s : ScanState) (PID k : Nat) (ev0 : List Ev) :
    List Ev × Except (PyErr × ScanState) PayloadOut :=
  match parsePMTSection ctx.data k with
  | .error e => (ev0, .error (e, s))
  | .ok _ =>
    if ctx.psi_mode = 0 then (ev0 ++ [Ev.pmtLog s.packetCount PID], .ok (.ret s))
    else (ev0 ++ [Ev.pmtLog s.packetCount PID], .ok (.fall s))

/-- The shared tail of the SIT branch, as `pmtEmit` but for SIT. -/
def sitEmit (ctx : Ctx) (s : ScanState) (PID k : Nat) (ev0 : List Ev) :
    List Ev × Except (PyErr × ScanState) PayloadOut :=
  match parseSITSection ctx.data k with
  | .error e => (ev0, .error (e, s))
  | .ok _ =>
    if ctx.psi_mode = 0 then (ev0 ++ [Ev.sitLog s.packetCount PID], .ok (.ret s))
    else (ev0 ++ [Ev.sitLog s.packetCount PID], .ok (.fall s))

/-- The payload block of one loop iteration, entered when
`adaptation_field_control` is 1 or 3: probe the 4-byte PES start code, then
either the PES/elementary-stream branch, the PSI table dispatch, or
nothing.  Exceptions carry the state as mutated so far.

In the PAT branch with `psi_mode == 2` the source's `continue` is indented
one level too shallow, so it runs on *both* arms of the uniqueness test:
a first-seen PID is recorded and the same packet is immediately rescanned
(without advancing `n`/`packetCount`), and `parsePATSection` is never
reached.  The PMT and SIT branches have the `continue` inside the `else`
arm, so there only duplicate PIDs are skipped. -/
def payloadBranch (ctx : Ctx) (s : ScanState) (PID pusi AFL : Nat) :
    List Ev × Except (PyErr × ScanState) PayloadOut :=
  match readFileN ctx.data (s.n + AFL + 4) 4 with
  | .error e => ([], .error (e, s))
  | .ok PESstartCode =>
    if (PESstartCode &&& 0xFFFFFF00) = 0x00000100 ∧ PID = ctx.pid ∧ pusi = 1 then
      match parsePESHeader ctx.data (s.n + AFL + 4) s.PESPktInfo with
      | .error e => ([], .error (e, s))
      | .ok r =>
        let s := { s with PESPktInfo := r.info }
        let PTS_MSB24 := ((r.info.PTS_hi &&& 0x1) <<< 23) ||| ((r.info.PTS_lo >>> 9) &&& 0x7FFFFF)
        let ev0 := [Ev.pesStart s.packetCount PID PTS_MSB24 r.info.PTS_hi r.info.PTS_lo]
        if ctx.mode = "ES" then
          let ev1 := [Ev.esLine s.packetCount PID r.info.streamID r.info.AUType]
          let (s, ev2) :=
            if s.idr_flag = true then
              ({ s with EntryPESPacketNumList := s.EntryPESPacketNumList ++
                   [(s.last_SameES_packetNo : Int) - (s.last_EntryTPI : Int) + 1] },
               [Ev.esLine s.packetCount PID r.info.streamID r.info.AUType])
            else (s, [])
          let (s, ev3) :=
            if r.info.AUType = some "IDR_picture" then
              ({ s with idr_flag := true
                        last_EntryTPI := s.packetCount
                        TPIList := s.TPIList ++ [s.packetCount]
                        PTSList := s.PTSList ++ [PTS_MSB24] },
               [Ev.esLine s.packetCount PID r.info.streamID r.info.AUType])
            else ({ s with idr_flag := false }, [])
          (ev0 ++ ev1 ++ ev2 ++ ev3, .ok (.fall s))
        else (ev0, .ok (.fall s))
    else if (PESstartCode &&& 0xFFFFFF00) ≠ 0x00000100 ∧ pusi = 1 then
      match readFileN ctx.data (s.n + AFL + 4 + 1 + (PESstartCode >>> 24)) 1 with
      | .error e => ([], .error (e, s))
      | .ok table_id =>
        let ev0 := if table_id = 0x0 ∧ PID ≠ 0x0 then [Ev.wrongTable s.packetCount] else []
        let k := s.n + AFL + 4 + 1 + (PESstartCode >>> 24)
        if table_id = 0x0 then
          if (ctx.searchItem = "FFF" ∧ ctx.mode = "PAT") ∨ ctx.searchItem = "PAT" then
            if ctx.psi_mode = 2 ∧ ctx.searchItem = "PAT" then
              -- misindented `continue`: both arms continue, the section is never decoded
              if s.PIDList.contains PID then
                (ev0, .ok (.cont { s with n := s.n + ctx.packet_size,
                                          packetCount := s.packetCount + 1 }))
              else (ev0, .ok (.cont { s with PIDList := s.PIDList ++ [PID] }))
            else
              match parsePATSection ctx.data k with
              | .error e => (ev0, .error (e, s))
              | .ok _ =>
                if ctx.psi_mode = 0 then (ev0 ++ [Ev.patLog s.packetCount PID], .ok (.ret s))
                else (ev0 ++ [Ev.patLog s.packetCount PID], .ok (.fall s))
          else (ev0, .ok (.fall s))
        else if table_id = 0x2 then
          if (ctx.searchItem = "FFF" ∧ ctx.mode = "PMT" ∧ PID = ctx.pid) ∨
              ctx.searchItem = "PMT" then
            if ctx.psi_mode = 2 ∧ ctx.searchItem = "PMT" then
              if s.PIDList.contains PID then
                (ev0, .ok (.cont { s with n := s.n + ctx.packet_size,
                                          packetCount := s.packetCount + 1 }))
              else pmtEmit ctx { s with PIDList := s.PIDList ++ [PID] } PID k ev0
            else pmtEmit ctx s PID k ev0
          else (ev0, .ok (.fall s))
        else if table_id = 0x7F then
          if (ctx.searchItem = "FFF" ∧ ctx.mode = "SIT" ∧ PID = ctx.pid) ∨
              ctx.searchItem = "SIT" then
            if ctx.psi_mode = 2 ∧ ctx.searchItem = "SIT" then
              if s.PIDList.contains PID then
                (ev0, .ok (.cont { s with n := s.n + ctx.packet_size,
                                          packetCount := s.packetCount + 1 }))
              else sitEmit ctx { s with PIDList := s.PIDList ++ [PID] } PID k ev0
            else sitEmit ctx s PID k ev0
          else (ev0, .ok (.fall s))
        else (ev0, .ok (.fall s))
    else ([], .ok (.fall s))

/-- One iteration of `parseTSMain`'s `while(True)` loop: read the 4-byte
packet header, `break` on a sync-byte mismatch, decode the adaptation field
when present (logging a PCR line when `searchItem == "PCR"` and the PCR
flag is set), run the payload block when a payload is present (updating
`last_SameES_packetNo` on its fall-through), then advance by `packet_size`,
increment the packet counter, and `break` past 1,450,000 packets. -/
def scanStep (ctx : Ctx) (s : ScanState) : List Ev × Except (PyErr × ScanState) StepOut :=
  match readFileN ctx.data s.n 4 with
  | .error e => ([], .error (e, s))
  | .ok PacketHeader =>
    if PacketHeader >>> 24 ≠ 0x47 then ([Ev.syncError], .ok (.brk s))
    else
      let payload_unit_start_indicator := (PacketHeader >>> 22) &&& 0x1
      let PID := (PacketHeader >>> 8) &&& 0x1FFF
      let adaptation_fieldc_trl := (PacketHeader >>> 4) &&& 0x3
      let afRes : List Ev × Except (PyErr × ScanState) (Nat × ScanState) :=
        if adaptation_fieldc_trl = 0x2 ∨ adaptation_fieldc_trl = 0x3 then
          match parseAdaptation_Field ctx.data (s.n + 4) s.PCR with
          | .error e => ([], .error (e, s))
          | .ok (afl, flags, pcr) =>
            let s := { s with PCR := pcr }
            if ctx.searchItem = "PCR" ∧ (flags >>> 4) &&& 0x1 = 1 then
              ([Ev.pcrLog s.packetCount PID pcr.PCR_base_hi pcr.PCR_base_lo pcr.PCR_extension
                  ((flags >>> 7) &&& 0x1 = 1)], .ok (afl, s))
            else ([], .ok (afl, s))
        else ([], .ok (0, s))
      match afRes with
      | (evA, .error e) => (evA, .error e)
      | (evA, .ok (Adaptation_Field_Length, s)) =>
        let pRes : List Ev × Except (PyErr × ScanState) PayloadOut :=
          if adaptation_fieldc_trl = 0x1 ∨ adaptation_fieldc_trl = 0x3 then
            match payloadBranch ctx s PID payload_unit_start_indicator Adaptation_Field_Length with
            | (evP, .ok (.fall s)) =>
              (evP, .ok (.fall (if PID = ctx.pid then
                { s with last_SameES_packetNo := s.packetCount } else s)))
            | other => other
          else ([], .ok (.fall s))
        match pRes with
        | (evP, .error e) => (evA ++ evP, .error e)
        | (evP, .ok (.cont s)) => (evA ++ evP, .ok (.next s))
        | (evP, .ok (.ret s)) => (evA ++ evP, .ok (.ret s))
        | (evP, .ok (.fall s)) =>
          let s := { s with n := s.n + ctx.packet_size, packetCount := s.packetCount + 1 }
          if s.packetCount > 1450000 then (evA ++ evP, .ok (.brk s))
          else (evA ++ evP, .ok (.next s))

/-- How the scan loop as a whole ends: `broke` out of the loop, `returned`
from the function, raised an exception, or (a model artifact) ran out of
loop fuel. -/
inductive ScanOutcome
  | broke (s : ScanState)
  | returned (s : ScanState)
  | errored (e : PyErr) (s : ScanState)
  | fuelOut (s : ScanState)
deriving DecidableEq, Repr

/-- `parseTSMain`'s `while(True)` loop, iterated at most `fuel` times (the
source's loop is bounded in practice by the packet-count ceiling; `fuel`
makes the iteration a total function). -/
def scanLoop (ctx : Ctx) : Nat → ScanState → List Ev × ScanOutcome
  | 0, s => ([], .fuelOut s)
  | fuel + 1, s =>
    match scanStep ctx s with
    | (evs, .error (e, sE)) => (evs, .errored e sE)
    | (evs, .ok (.brk sB)) => (evs, .broke sB)
    | (evs, .ok (.ret sR)) => (evs, .returned sR)
    | (evs, .ok (.next sN)) =>
      let rest := scanLoop ctx fuel sN
      (evs ++ rest.1, rest.2)

/-- The final report block of `parseTSMain`: one line per
`EntryPESPacketNumList` index, reading the matching `TPIList` and `PTSList`
entries (`getD` stands in for Python indexing; the scan never makes
`EntryPESPacketNumList` longer than the other two lists). -/
def reportLines (s : ScanState) : List Ev :=
  (List.range s.EntryPESPacketNumList.length).map fun i =>
    Ev.reportLine (s.TPIList.getD i 0) (s.PTSList.getD i 0) (s.EntryPESPacketNumList.getD i 0)

/-- The initial scan state: offset 0, or 4 for 192-byte packets. -/
def initState (packet_size : Nat) : ScanState :=
  { n := if packet_size ≠ 192 then 0 else 4
    packetCount := 0
    PCR := SystemClock.init
    PESPktInfo := PESPacketInfo.init
    EntryPESPacketNumList := []
    TPIList := []
    PTSList := []
    PIDList := []
    idr_flag := false
    last_SameES_packetNo := 0
    last_EntryTPI := 0 }

/-- How `parseTSMain` itself ends: normally, or with an uncaught exception
propagating out of it. -/
inductive TSOut
  | normal
  | raised (e : PyErr)
  | fuelOut
deriving DecidableEq, Repr

/-- `parseTSMain(filehandle, packet_size, mode, pid, psi_mode, searchItem)`:
run the scan loop from the initial state and emit the final report.  The
`try/except IOError/else` of the source gives four endings: `break` leaves
the loop normally and the report follows; `return` (the `psi_mode == 0`
paths) exits the whole function, skipping the report; a caught `IOError`
logs the EOF line and falls through to the report; any other exception
(in particular `struct.error` from a short read) propagates out of
`parseTSMain`, and nothing after it is emitted. -/
def parseTSMain (ctx : Ctx) (fuel : Nat) : List Ev × TSOut :=
  match scanLoop ctx fuel (initState ctx.packet_size) with
  | (evs, .broke s) => (evs ++ reportLines s, .normal)
  | (evs, .returned _) => (evs, .normal)
  | (evs, .errored .ioError s) => (evs ++ [Ev.ioErrorLog] ++ reportLines s, .normal)
  | (evs, .errored e _) => (evs, .raised e)
  | (evs, .fuelOut _) => (evs, .fuelOut)

/-- Decidable equality for `Except` results, so that concrete runs of the
embedded functions can be checked by `decide`. -/
instance {ε α : Type} [DecidableEq ε] [DecidableEq α] : DecidableEq (Except ε α)
  | .error e, .error f =>
    if h : e = f then .isTrue (congrArg Except.error h)
    else .isFalse fun hc => h (Except.error.inj hc)
  | .error _, .ok _ => .isFalse fun hc => Except.noConfusion hc
  | .ok _, .error _ => .isFalse fun hc => Except.noConfusion hc
  | .ok a, .ok b =>
    if h : a = b then .isTrue (congrArg Except.ok h)
    else .isFalse fun hc => h (Except.ok.inj hc)

/-- A descriptor loop's `(tag, length)` pairs as they are laid out in the
byte source starting at cursor `m`: each pair occupies two bytes and is
followed by `length` bytes of payload before the next pair. -/
def pairsAt (data : List Nat) : Nat → List (Nat × Nat) → Prop
  | _, [] => True
  | m, p :: rest =>
    readFileN data m 1 = .ok p.1 ∧ readFileN data (m + 1) 1 = .ok p.2 ∧
      pairsAt data (m + p.2 + 2) rest

/-- The total number of bytes a list of `(tag, length)` descriptor pairs
announces: `length + 2` per pair. -/
def announcedLen (ps : List (Nat × Nat)) : Nat :=
  (ps.map fun p => p.2 + 2).sum

/-- C2: the spec says a read with fewer than `width` bytes remaining
(including EOF) fails with `StreamExhausted`, i.e. raises `IOError`.  The
code instead raises `struct.error` in every such situation, and `IOError`
is unreachable: `read()` returns `bytes` in Python 3, so the guard
`string == ''` in front of `raise IOError` never holds, and the short
buffer reaches `struct.unpack`. -/
theorem claim_C2_behavior :
    readFile ([] : List Nat) 0 4 = .error .structError ∧
    readFile [1, 2, 3] 0 4 = .error .structError ∧
    readFile [1] 0 2 = .error .structError ∧
    readFile [9, 9, 9] 3 1 = .error .structError ∧
    ∀ (data : List Nat) (startPos width : Nat),
      readFile data startPos width ≠ .error .ioError := by
  refine ⟨by decide, by decide, by decide, by decide, ?_⟩
  intro data startPos width
  unfold readFile
  split_ifs <;> simp_all [bytesEqStr] <;> split <;> simp_all

/-- C7: an adaptation field with positive length and PCR flag set decodes
the 4-byte field `F1` and 2-byte field `F2` into exactly
`base_hi = bit 31 of F1`, `base_lo = (F1 << 1) + bit 15 of F2`,
`extension = low 9 bits of F2`. -/
theorem claim_C7 (data : List Nat) (n L flags F1 F2 : Nat) (PCR : SystemClock)
    (hL : readFileN data n 1 = .ok L) (hpos : 0 < L)
    (hflags : readFileN data (n + 1) 1 = .ok flags)
    (hbit : (flags >>> 4) &&& 0x1 = 1)
    (hF1 : readFileN data (n + 2) 4 = .ok F1)
    (hF2 : readFileN data (n + 6) 2 = .ok F2) :
    parseAdaptation_Field data n PCR =
      .ok (L + 1, flags,
        { PCR_base_hi := (F1 >>> 31) &&& 0x1
          PCR_base_lo := (F1 <<< 1) + ((F2 >>> 15) &&& 0x1)
          PCR_extension := F2 &&& 0x1FF }) := by
  unfold parseAdaptation_Field
  rw [hL]
  simp [hpos, hflags, hbit, hF1, hF2]

/-- C7 witness: the spec's synthetic PCR — `base_hi = 1`,
`base_lo = 0x1FFFFFFFF`, `extension = 0x1FF` — decoded from a concrete
adaptation field. -/
theorem claim_C7_witness :
    parseAdaptation_Field [0x07, 0x10, 0xFF, 0xFF, 0xFF, 0xFF, 0x81, 0xFF] 0 SystemClock.init =
      .ok (8, 0x10,
        { PCR_base_hi := 1, PCR_base_lo := 0x1FFFFFFFF, PCR_extension := 0x1FF }) := by
  have h := claim_C7 [0x07, 0x10, 0xFF, 0xFF, 0xFF, 0xFF, 0x81, 0xFF] 0 7 0x10 0xFFFFFFFF 0x81FF
    SystemClock.init (by decide) (by decide) (by decide) (by decide) (by decide) (by decide)
  rw [h]
  decide

/-- C8: a descriptor loop whose `(tag, length)` pairs announce exactly `L`
bytes in total leaves the cursor at `loop_start + L`, whatever the tags
are. -/
theorem claim_C8 (data : List Nat) (ps : List (Nat × Nat)) :
    ∀ m : Nat, pairsAt data m ps →
      descriptorLoop data (announcedLen ps : Int) m = .ok (m + announcedLen ps) := by
  induction ps with
  | nil =>
    intro m _
    unfold descriptorLoop
    simp [announcedLen]
  | cons p rest ih =>
    intro m h
    obtain ⟨ht, hl, hrest⟩ := h
    have hpos : (0 : Int) < (announcedLen (p :: rest) : Int) := by
      have h0 : 0 < announcedLen (p :: rest) := by simp [announcedLen]
      exact_mod_cast h0
    unfold descriptorLoop
    rw [dif_pos hpos, ht, hl]
    show descriptorLoop data ((announcedLen (p :: rest) : Int) - ((p.2 : Int) + 2))
        (m + p.2 + 2) = Except.ok (m + announcedLen (p :: rest))
    have harith : (announcedLen (p :: rest) : Int) - ((p.2 : Int) + 2) =
        (announcedLen rest : Int) := by
      simp only [announcedLen, List.map_cons, List.sum_cons]
      push_cast
      ring
    rw [harith, ih (m + p.2 + 2) hrest]
    have hsum : m + p.2 + 2 + announcedLen rest = m + announcedLen (p :: rest) := by
      simp only [announcedLen, List.map_cons, List.sum_cons]
      omega
    rw [hsum]

/-- C8 witness: a one-descriptor loop `(tag 5, length 3)` announcing 5
bytes moves the cursor from 0 to 5. -/
theorem claim_C8_witness :
    pairsAt [5, 3, 0, 0, 0] 0 [(5, 3)] ∧ descriptorLoop [5, 3, 0, 0, 0] 5 0 = .ok 5 := by
  have hp : pairsAt [5, 3, 0, 0, 0] 0 [(5, 3)] := by
    unfold pairsAt
    exact ⟨by decide, by decide, trivial⟩
  refine ⟨hp, ?_⟩
  have h := claim_C8 [5, 3, 0, 0, 0] [(5, 3)] 0 hp
  simpa [announcedLen] using h

/-- Inversion of a successful `parsePESHeader` run: either the stream id is
one of the system ids and the result only records the stream id, or the
4-byte flags field was read and one of the three `PTS_DTS_flag` branches
ran to completion. -/
theorem parsePESHeader_cases (data : List Nat) (n : Nat) (info : PESPacketInfo)
    (r : PESParseResult) (sid : Nat)
    (hsid : readFileN data (n + 3) 1 = .ok sid)
    (hok : parsePESHeader data n info = .ok r) :
    (notSystemStreamID sid = false ∧ r = ⟨{ info with streamID := sid }, none, none⟩) ∨
    (notSystemStreamID sid = true ∧ ∃ fl, readFileN data (n + 5) 4 = .ok fl ∧
      (((fl >>> 14) &&& 0x3 = 0x2 ∧ ∃ pts au,
          getPTS data (n + 9) = .ok pts ∧
          parseIndividualPESPayload data (n + (6 + (fl &&& 0xFF) + 3)) = .ok au ∧
          r = ⟨⟨pts.1, pts.2, sid, au⟩, some pts, none⟩) ∨
       ((fl >>> 14) &&& 0x3 = 0x3 ∧ ∃ pts dts au,
          getPTS data (n + 9) = .ok pts ∧ getPTS data (n + 14) = .ok dts ∧
          parseIndividualPESPayload data (n + (6 + (fl &&& 0xFF) + 3)) = .ok au ∧
          r = ⟨⟨pts.1, pts.2, sid, au⟩, some pts, some dts⟩) ∨
       ((fl >>> 14) &&& 0x3 ≠ 0x2 ∧ (fl >>> 14) &&& 0x3 ≠ 0x3 ∧
          r = ⟨{ info with streamID := sid }, none, none⟩))) := by
  unfold parsePESHeader at hok
  split at hok
  · exact absurd hok (by simp)
  next stream_ID h3 =>
    have hstream : stream_ID = sid := by
      rw [h3] at hsid
      exact Except.ok.inj hsid
    subst hstream
    split at hok
    · exact absurd hok (by simp)
    next _len h4 =>
      split at hok
      next hsys =>
        split at hok
        · exact absurd hok (by simp)
        next fl h5 =>
          simp only [] at hok
          by_cases hf2 : fl >>> 14 &&& 0x3 = 0x2
          · rw [if_pos hf2] at hok
            split at hok
            · exact absurd hok (by simp)
            next pts hg =>
              split at hok
              · exact absurd hok (by simp)
              next au hp =>
                exact Or.inr ⟨hsys, fl, h5, Or.inl ⟨hf2, pts, au, hg, hp,
                  (Except.ok.inj hok).symm⟩⟩
          · rw [if_neg hf2] at hok
            by_cases hf3 : fl >>> 14 &&& 0x3 = 0x3
            · rw [if_pos hf3] at hok
              split at hok
              · exact absurd hok (by simp)
              next pts hg =>
                split at hok
                · exact absurd hok (by simp)
                next dts hg2 =>
                  split at hok
                  · exact absurd hok (by simp)
                  next au hp =>
                    exact Or.inr ⟨hsys, fl, h5, Or.inr (Or.inl ⟨hf3, pts, dts, au, hg, hg2, hp,
                      (Except.ok.inj hok).symm⟩)⟩
            · rw [if_neg hf3] at hok
              exact Or.inr ⟨hsys, fl, h5, Or.inr (Or.inr ⟨hf2, hf3,
                (Except.ok.inj hok).symm⟩)⟩
      next hsys =>
        exact Or.inl ⟨by simpa using hsys, (Except.ok.inj hok).symm⟩

/-- C4: for a non-system PES header, `PTS_DTS_flag = 0b10` decodes exactly
one PTS and no DTS into the result, `0b11` decodes both (the DTS into
local bindings that the source then discards), and `0b00`/`0b01` decodes
neither and stops header parsing, leaving the timestamp fields and
classification untouched. -/
theorem claim_C4 (data : List Nat) (n : Nat) (info : PESPacketInfo) (r : PESParseResult)
    (sid fl : Nat)
    (hsid : readFileN data (n + 3) 1 = .ok sid)
    (hsys : notSystemStreamID sid = true)
    (hfl : readFileN data (n + 5) 4 = .ok fl)
    (hok : parsePESHeader data n info = .ok r) :
    ((fl >>> 14) &&& 0x3 = 0x2 →
      ∃ pts, getPTS data (n + 9) = .ok pts ∧ r.ptsDecoded = some pts ∧ r.dtsDecoded = none ∧
        r.info.PTS_hi = pts.1 ∧ r.info.PTS_lo = pts.2) ∧
    ((fl >>> 14) &&& 0x3 = 0x3 →
      ∃ pts dts, getPTS data (n + 9) = .ok pts ∧ getPTS data (n + 14) = .ok dts ∧
        r.ptsDecoded = some pts ∧ r.dtsDecoded = some dts ∧
        r.info.PTS_hi = pts.1 ∧ r.info.PTS_lo = pts.2) ∧
    ((fl >>> 14) &&& 0x3 = 0x0 ∨ (fl >>> 14) &&& 0x3 = 0x1 →
      r.ptsDecoded = none ∧ r.dtsDecoded = none ∧
      r.info.PTS_hi = info.PTS_hi ∧ r.info.PTS_lo = info.PTS_lo ∧
      r.info.AUType = info.AUType) := by
  rcases parsePESHeader_cases data n info r sid hsid hok with ⟨hf, _⟩ | ⟨_, fl2, hfl2, hc⟩
  · rw [hsys] at hf
    cases hf
  · have hfl2e : fl2 = fl := by
      rw [hfl2] at hfl
      exact Except.ok.inj hfl
    subst hfl2e
    rcases hc with ⟨h2, pts, au, hg, hp, hr⟩ | ⟨h3, pts, dts, au, hg, hg2, hp, hr⟩ |
      ⟨hn2, hn3, hr⟩
    · subst hr
      exact ⟨fun _ => ⟨pts, hg, rfl, rfl, rfl, rfl⟩, fun hc3 => by omega, fun hc01 => by
        rcases hc01 with h | h <;> omega⟩
    · subst hr
      exact ⟨fun hc2 => by omega, fun _ => ⟨pts, dts, hg, hg2, rfl, rfl, rfl, rfl⟩,
        fun hc01 => by rcases hc01 with h | h <;> omega⟩
    · subst hr
      exact ⟨fun hc2 => absurd hc2 hn2, fun hc3 => absurd hc3 hn3,
        fun _ => ⟨rfl, rfl, rfl, rfl, rfl⟩⟩

/-- C4 witness: a header with stream id 0xE0 and `PTS_DTS_flag = 0` decodes
no timestamps and leaves the PTS fields at their prior values. -/
theorem claim_C4_witness :
    ∃ r, parsePESHeader [0, 0, 1, 0xE0, 0, 0, 0, 0x00, 0x05] 0 PESPacketInfo.init = .ok r ∧
      r.ptsDecoded = none ∧ r.dtsDecoded = none ∧ r.info.PTS_hi = 0 ∧ r.info.PTS_lo = 0 := by
  have h := claim_C4 [0, 0, 1, 0xE0, 0, 0, 0, 0x00, 0x05] 0 PESPacketInfo.init
    ⟨⟨0, 0, 0xE0, some ""⟩, none, none⟩ 0xE0 5
    (by decide) (by decide) (by decide) (by decide)
  have h0 := h.2.2 (Or.inl (by decide))
  exact ⟨⟨⟨0, 0, 0xE0, some ""⟩, none, none⟩, by decide, h0.1, h0.2.1, by decide, by decide⟩

/-- Helper for C1: if every window strictly before position `k` fails the
start-code test and the window at `k ≤ 100` passes it with NAL type 9, the
scan loop of `parseIndividualPESPayload`, entered at any `j ≤ k` with the
window it just read there, classifies by the top 3 bits of the byte at
`n + k + 4`. -/
theorem pesLoop_finds (data : List Nat) (n k w b : Nat)
    (hk : k ≤ 100)
    (hw : readFileN data (n + k) 4 = .ok w)
    (hmask : w &&& 0xFFFFFF00 = 0x00000100)
    (htype : w &&& 0x1F = 0x9)
    (hb : readFileN data (n + k + 4) 1 = .ok b)
    (hfirst : ∀ i, i < k → ∃ wi, readFileN data (n + i) 4 = .ok wi ∧
      wi &&& 0xFFFFFF00 ≠ 0x00000100) :
    ∀ d j wj, k - j = d → j ≤ k → readFileN data (n + j) 4 = .ok wj →
      pesLoop data n j wj =
        .ok (some (if (b &&& 0xE0) >>> 5 = 0 then "IDR_picture" else "non_IDR_picture")) := by
  intro d
  induction d with
  | zero =>
    intro j wj hd hj hr
    have hjk : j = k := by omega
    subst hjk
    have hwj : wj = w := by
      rw [hw] at hr
      exact (Except.ok.inj hr).symm
    subst hwj
    unfold pesLoop
    rw [if_neg (by rw [hmask]; exact fun hc => hc rfl)]
    rw [if_pos ⟨hmask, htype⟩, hb]
    by_cases hbb : (b &&& 0xE0) >>> 5 = 0 <;> simp [hbb]
  | succ d ihd =>
    intro j wj hd hj hr
    have hjk : j < k := by omega
    obtain ⟨wi, hwi, hne⟩ := hfirst j hjk
    have hwj : wj = wi := by
      rw [hwi] at hr
      exact (Except.ok.inj hr).symm
    subst hwj
    unfold pesLoop
    rw [if_pos hne, if_neg (show ¬j + 1 > 100 by omega)]
    rcases Nat.lt_or_ge (j + 1) k with hlt | hge
    · obtain ⟨w2, hw2, _⟩ := hfirst (j + 1) hlt
      rw [hw2]
      exact ihd (j + 1) w2 (by omega) (by omega) hw2
    · have hjk1 : j + 1 = k := by omega
      rw [hjk1, hw]
      exact ihd k w (by omega) (by omega) hw

/-- C1: when the 100-byte lookahead from the payload start finds its first
start-code window at offset `k` and that window's fourth byte has low 5
bits 9 (an access-unit delimiter), the classifier reads the byte at
`k + 4`, and returns `IDR_picture` exactly when its top 3 bits are 0 and
`non_IDR_picture` for any other value. -/
theorem claim_C1 (data : List Nat) (n k w b : Nat)
    (hk : k ≤ 100)
    (hw : readFileN data (n + k) 4 = .ok w)
    (hmask : w &&& 0xFFFFFF00 = 0x00000100)
    (htype : w &&& 0x1F = 0x9)
    (hb : readFileN data (n + k + 4) 1 = .ok b)
    (hfirst : ∀ i, i < k → ∃ wi, readFileN data (n + i) 4 = .ok wi ∧
      wi &&& 0xFFFFFF00 ≠ 0x00000100) :
    parseIndividualPESPayload data n =
      .ok (some (if (b &&& 0xE0) >>> 5 = 0 then "IDR_picture" else "non_IDR_picture")) := by
  unfold parseIndividualPESPayload
  rcases Nat.eq_zero_or_pos k with rfl | hpos
  · rw [show n + 0 = n from rfl] at hw
    rw [hw]
    exact pesLoop_finds data n 0 w b hk (by simpa using hw) hmask htype hb hfirst 0 0 w rfl
      (Nat.le_refl 0) (by simpa using hw)
  · obtain ⟨w0, hw0, hne0⟩ := hfirst 0 hpos
    rw [show n + 0 = n from rfl] at hw0
    rw [hw0]
    exact pesLoop_finds data n k w b hk hw hmask htype hb hfirst k 0 w0 (by omega)
      (Nat.zero_le k) (by simpa using hw0)

/-- C1 witness: payload `FF 00 00 01 09 00` — first window mismatches, the
window at offset 1 is start code `00 00 01` with NAL type 9, the byte at
offset 5 has top 3 bits 0, so the classifier returns `IDR_picture`. -/
theorem claim_C1_witness :
    parseIndividualPESPayload [0xFF, 0x00, 0x00, 0x01, 0x09, 0x00] 0 =
      .ok (some "IDR_picture") := by
  have h := claim_C1 [0xFF, 0x00, 0x00, 0x01, 0x09, 0x00] 0 1 0x109 0
    (by decide) (by decide) (by decide) (by decide) (by decide)
    (fun i hi => by
      interval_cases i
      exact ⟨0xFF000001, by decide, by decide⟩)
  simpa using h

/-- C9: `parseTSMain` allocates one `PESPacketInfo` and passes it to every
`parsePESHeader` call, which mutates it in place.  For a header whose
`PTS_DTS_flag` is `0b00`/`0b01` or whose stream id is a system id, the
timestamp fields are left untouched, so the `PES start` log line emitted
right after the call reports the PTS decoded for an earlier packet — or
the initial value 0 if none was ever decoded (`PESPacketInfo.init` has
`PTS_hi = PTS_lo = 0`). -/
theorem claim_C9 (ctx : Ctx) (s : ScanState) (hd st sid : Nat) (r : PESParseResult)
    (hhd : readFileN ctx.data s.n 4 = .ok hd)
    (hsync : hd >>> 24 = 0x47)
    (hafc : (hd >>> 4) &&& 0x3 = 0x1)
    (hpusi : (hd >>> 22) &&& 0x1 = 1)
    (hPID : (hd >>> 8) &&& 0x1FFF = ctx.pid)
    (hst : readFileN ctx.data (s.n + 4) 4 = .ok st)
    (hmask : st &&& 0xFFFFFF00 = 0x00000100)
    (hpes : parsePESHeader ctx.data (s.n + 4) s.PESPktInfo = .ok r)
    (hsid : readFileN ctx.data (s.n + 4 + 3) 1 = .ok sid)
    (hcond : notSystemStreamID sid = false ∨
      ∃ fl, readFileN ctx.data (s.n + 4 + 5) 4 = .ok fl ∧
        ((fl >>> 14) &&& 0x3 = 0x0 ∨ (fl >>> 14) &&& 0x3 = 0x1)) :
    r.info.PTS_hi = s.PESPktInfo.PTS_hi ∧ r.info.PTS_lo = s.PESPktInfo.PTS_lo ∧
    PESPacketInfo.init.PTS_hi = 0 ∧ PESPacketInfo.init.PTS_lo = 0 ∧
    ∃ rest, (scanStep ctx s).1 =
      Ev.pesStart s.packetCount ctx.pid
        (((s.PESPktInfo.PTS_hi &&& 0x1) <<< 23) ||| ((s.PESPktInfo.PTS_lo >>> 9) &&& 0x7FFFFF))
        s.PESPktInfo.PTS_hi s.PESPktInfo.PTS_lo :: rest := by
  have hpts : r.info.PTS_hi = s.PESPktInfo.PTS_hi ∧ r.info.PTS_lo = s.PESPktInfo.PTS_lo := by
    rcases parsePESHeader_cases ctx.data (s.n + 4) s.PESPktInfo r sid hsid hpes with
      ⟨hfb, hr⟩ | ⟨hsys, fl2, hfl2, hc⟩
    · subst hr
      exact ⟨rfl, rfl⟩
    · rcases hc with ⟨h2, _, _, _, _, hr⟩ | ⟨h3, _, _, _, _, _, _, hr⟩ | ⟨_, _, hr⟩
      · exfalso
        rcases hcond with hL | ⟨fl, hfl, hf01⟩
        · rw [hsys] at hL
          cases hL
        · have hfe : fl2 = fl := by
            rw [hfl2] at hfl
            exact Except.ok.inj hfl
          subst hfe
          rcases hf01 with h | h <;> omega
      · exfalso
        rcases hcond with hL | ⟨fl, hfl, hf01⟩
        · rw [hsys] at hL
          cases hL
        · have hfe : fl2 = fl := by
            rw [hfl2] at hfl
            exact Except.ok.inj hfl
          subst hfe
          rcases hf01 with h | h <;> omega
      · subst hr
        exact ⟨rfl, rfl⟩
  refine ⟨hpts.1, hpts.2, rfl, rfl, ?_⟩
  unfold scanStep
  simp only [hhd]
  rw [if_neg (fun hc => hc hsync)]
  simp only [hafc, hpusi, hPID]
  norm_num
  unfold payloadBranch
  simp only [Nat.add_zero, hst]
  rw [if_pos (show st &&& 0xFFFFFF00 = 0x00000100 ∧ True ∧ True from ⟨hmask, trivial, trivial⟩)]
  simp only [hpes, hpts.1, hpts.2]
  by_cases hm : ctx.mode = "ES" <;>
  by_cases hidr : s.idr_flag = true <;>
  by_cases hau : r.info.AUType = some "IDR_picture" <;>
  by_cases hlim : s.packetCount + 1 > 1450000 <;>
  simp [hm, hidr, hau, hlim]

/-- C9 witness: a packet whose PES payload carries the system stream id
0xBE; the `PES start` line reports the initial PTS 0 of the untouched
`PESPacketInfo`. -/
theorem claim_C9_witness :
    ∃ r, parsePESHeader [0x47, 0x41, 0x00, 0x10, 0x00, 0x00, 0x01, 0xBE, 0x00, 0x00] 4
        (initState 188).PESPktInfo = .ok r ∧
      r.info.PTS_hi = 0 ∧ r.info.PTS_lo = 0 ∧
      ∃ rest,
        (scanStep ⟨[0x47, 0x41, 0x00, 0x10, 0x00, 0x00, 0x01, 0xBE, 0x00, 0x00], 188, "ES",
            0x100, 0, "FFF"⟩ (initState 188)).1 = Ev.pesStart 0 0x100 0 0 0 :: rest := by
  have h := claim_C9
    ⟨[0x47, 0x41, 0x00, 0x10, 0x00, 0x00, 0x01, 0xBE, 0x00, 0x00], 188, "ES", 0x100, 0, "FFF"⟩
    (initState 188) 0x47410010 0x1BE 0xBE ⟨⟨0, 0, 0xBE, some ""⟩, none, none⟩
    (by decide) (by decide) (by decide) (by decide) (by decide) (by decide) (by decide)
    (by decide) (by decide) (Or.inl (by decide))
  obtain ⟨h1, h2, _, _, rest, hrest⟩ := h
  exact ⟨⟨⟨0, 0, 0xBE, some ""⟩, none, none⟩, by decide, by decide, by decide,
    rest, by simpa using hrest⟩

/-- Splitting a scan-loop run: a run that used up `i` fuel without halting
(state `s`, log `evs`) composes with any continuation of the loop from
`s`. -/
theorem scanLoop_add (ctx : Ctx) (j : Nat) :
    ∀ (i : Nat) (s0 s : ScanState) (evs : List Ev),
      scanLoop ctx i s0 = (evs, .fuelOut s) →
      scanLoop ctx (i + j) s0 =
        (evs ++ (scanLoop ctx j s).1, (scanLoop ctx j s).2) := by
  intro i
  induction i with
  | zero =>
    intro s0 s evs h
    simp only [scanLoop, Prod.mk.injEq, ScanOutcome.fuelOut.injEq] at h
    obtain ⟨h1, h2⟩ := h
    subst h1
    subst h2
    simp [Nat.zero_add]
  | succ i ih =>
    intro s0 s evs h
    have hsucc : i + 1 + j = (i + j) + 1 := by omega
    rw [hsucc]
    rcases hstep : scanStep ctx s0 with ⟨evs1, res⟩
    match res with
    | .error p =>
      simp only [scanLoop, hstep] at h
      simp at h
    | .ok (.brk sB) =>
      simp only [scanLoop, hstep] at h
      simp at h
    | .ok (.ret sR) =>
      simp only [scanLoop, hstep] at h
      simp at h
    | .ok (.next sN) =>
      simp only [scanLoop, hstep] at h ⊢
      rcases hrec : scanLoop ctx i sN with ⟨evs2, out2⟩
      rw [hrec] at h
      simp only [Prod.mk.injEq] at h
      obtain ⟨hevs, hout⟩ := h
      subst hevs
      rw [hout] at hrec
      have ih2 := ih sN s evs2 hrec
      rw [ih2]
      simp

/-- C6: when the scan (after any number of cleanly processed packets,
leaving log `evs` and state `s`) reads a packet header whose sync byte is
not 0x47, it logs the sync diagnostic, breaks out of the loop at that
packet — no later packet contributes anything — and still emits the
entry-point report accumulated in `s`. -/
theorem claim_C6 (ctx : Ctx) (i fuel : Nat) (s : ScanState) (evs : List Ev) (hd : Nat)
    (hreach : scanLoop ctx i (initState ctx.packet_size) = (evs, .fuelOut s))
    (hhd : readFileN ctx.data s.n 4 = .ok hd)
    (hsync : hd >>> 24 ≠ 0x47) :
    parseTSMain ctx (i + (fuel + 1)) = (evs ++ Ev.syncError :: reportLines s, .normal) := by
  have hstep : scanStep ctx s = ([Ev.syncError], .ok (.brk s)) := by
    unfold scanStep
    simp only [hhd]
    rw [if_pos hsync]
  have hloop : scanLoop ctx (fuel + 1) s = ([Ev.syncError], .broke s) := by
    simp only [scanLoop, hstep]
  have hadd := scanLoop_add ctx (fuel + 1) i (initState ctx.packet_size) s evs hreach
  rw [hloop] at hadd
  unfold parseTSMain
  rw [hadd]
  simp

/-- C6 witness: a stream whose very first sync byte is 0x00 — the scan
halts immediately and emits the (empty) report. -/
theorem claim_C6_witness :
    parseTSMain ⟨[0, 0, 0, 0], 188, "PAT", 0, 0, "FFF"⟩ 1 = ([Ev.syncError], .normal) := by
  have h := claim_C6 ⟨[0, 0, 0, 0], 188, "PAT", 0, 0, "FFF"⟩ 0 0 (initState 188) [] 0
    (by decide) (by decide) (by decide)
  simpa [reportLines, initState] using h

/-- C3: the spec says exhaustion of the byte source mid-read ends the scan
like a clean EOF, with the report still emitted and no exception escaping.
On this 4-byte stream (a valid header announcing a payload, then
truncation) the payload probe's short read raises `struct.error`, which
`except IOError` does not catch: the exception propagates out of
`parseTSMain` and not even the empty report block is emitted. -/
theorem claim_C3_behavior :
    parseTSMain ⟨[0x47, 0x00, 0x00, 0x10], 188, "PAT", 0, 0, "FFF"⟩ 5 =
      ([], .raised .structError) := by
  decide

/-- C5: a `UniquePerPID` (`psi_mode = 2`) scan for `searchItem = "PAT"`
over a single 188-byte packet carrying a PAT section on the fresh PID 0.
The claim says the PAT is decoded and logged once; instead the misindented
`continue` makes the first visit record the PID and rescan the same packet,
the second visit skip it as a duplicate, and the third iteration run off
the end of the stream — the log stays empty (no `patLog`, no decode) and
`struct.error` escapes. -/
theorem claim_C5_behavior :
    parseTSMain ⟨[0x47, 0x40, 0x00, 0x10, 0x00, 0x00] ++ List.replicate 182 0, 188,
        "PAT", 0, 2, "PAT"⟩ 10 =
      ([], .raised .structError) := by
  decide

/-- C10: a read with a width other than 1, 2 or 4 falls through the
`if/elif` chain of `readFile` and returns `None` — no bytes are unpacked
and no exception is raised. -/
theorem claim_C10 (data : List Nat) (startPos width : Nat)
    (h : width ≠ 1 ∧ width ≠ 2 ∧ width ≠ 4) :
    readFile data startPos width = .ok none := by
  unfold readFile
  rw [if_neg h.2.2, if_neg h.2.1, if_neg h.1]

/-- C10 witness: width 3 at offset 0 of a 3-byte source returns `None`. -/
theorem claim_C10_witness :
    ((3 : Nat) ≠ 1 ∧ (3 : Nat) ≠ 2 ∧ (3 : Nat) ≠ 4) ∧ readFile [5, 6, 7] 0 3 = .ok none :=
  ⟨by decide, claim_C10 [5, 6, 7] 0 3 (by decide)⟩

end TSParser
